import Mathlib

/-
  Verification development for src/tcpreplay_api.c (tcpreplay replay API).

  The C file is shallowly embedded below: the context struct tcpreplay_t and
  its option record become Lean structures, every API operation becomes a pure
  function from the context to a result code paired with the updated context,
  and the blocking replay loop becomes a fuel-indexed function (None = the
  given fuel did not suffice, i.e. the C loop had not yet returned).

  Pointers that the claims care about only through their NULL-ness are
  modelled as Option values.  In particular options->file_cache is an
  Option (List file_cache_t): a store through an absent (NULL) pointer is
  dropped by the Option-map, and separate Bool predicates record exactly
  when the C source would have dereferenced the NULL pointer.

  The per-source drivers replay_file / replay_fd / replay_cache live in
  replay.c, which is not part of the sources under verification; they are
  kept fully parametric (a ReplayDrivers record), so every theorem about
  tcpreplay_replay quantifies over their behaviour.
-/

/-- struct timeval as used for the statistics timestamps. -/
structure timeval where
  tv_sec : Int
  tv_usec : Int
deriving DecidableEq

/-- tcpreplay_stats_t: live statistics and their snapshot share this shape. -/
structure tcpreplay_stats_t where
  pkts_sent : Nat
  bytes_sent : Nat
  failed : Nat
  start_time : timeval
  end_time : timeval
deriving DecidableEq

/-- Source type tag of a sources[] slot.  The numeric enum values live in
tcpreplay_api.h, which is not under src; `source_unset` stands for the
zero-initialized value of a slot whose type field was never assigned
(tcpreplay_add_pcapfile writes only the filename field).  No claim verdict
below depends on which switch branch `source_unset` selects. -/
inductive tcpreplay_source_type where
  | source_filename
  | source_fd
  | source_cache
  | source_unset
deriving DecidableEq

/-- One slot of the options->sources array. -/
structure tcpreplay_source_t where
  type : tcpreplay_source_type
  filename : Option String
deriving DecidableEq

/-- file_cache_t: per-source file cache bookkeeping.  The packet_cache
pointer is modelled only through its NULL-ness. -/
structure file_cache_t where
  index : Nat
  cached : Bool
  packet_cache : Option Unit
deriving DecidableEq

inductive tcpreplay_speed_mode where
  | speed_multiplier
  | speed_mbpsrate
  | speed_packetrate
  | speed_topspeed
  | speed_oneatatime
deriving DecidableEq

/-- speed_t.  The float field `speed` is modelled as an uninterpreted
bit-pattern surrogate (Nat); no claim computes with it.  The manual
callback function pointer is modelled by its presence. -/
structure speed_t where
  mode : tcpreplay_speed_mode
  speed : Nat
  pps_multi : Int
  manual_callback : Option Unit
deriving DecidableEq

inductive tcpreplay_accurate where
  | accurate_gtod
  | accurate_select
  | accurate_rdtsc
  | accurate_ioport
  | accurate_nanosleep
  | accurate_abs_time
deriving DecidableEq

/-- tcpreplay_opt_t (the fields the visible code reads or writes).
cachedata is a pointer modelled by NULL-ness; sources is the filled prefix
of the fixed zero-initialized array (slots past the list are the
zero-initialized record, see arrGet). -/
structure tcpreplay_opt_t where
  loop : Nat
  sleep_accel : Int
  limit_send : Int
  mtu : Int
  use_pkthdr_len : Bool
  enable_file_cache : Bool
  accurate : tcpreplay_accurate
  speed : speed_t
  source_cnt : Nat
  sources : List tcpreplay_source_t
  file_cache : Option (List file_cache_t)
  cachedata : Bool
  cache_packets : Int
  comment : Option String
  intf1_name : Option String
  intf2_name : Option String
deriving DecidableEq

/-- tcpreplay_t: the replay context.  Interface handles intf1/intf2 are
modelled by their presence. -/
structure tcpreplay_t where
  options : tcpreplay_opt_t
  intf1 : Bool
  intf2 : Bool
  errstr : String
  warnstr : String
  stats : tcpreplay_stats_t
  static_stats : tcpreplay_stats_t
  current_source : Nat
  cache_byte : Nat
  cache_bit : Nat
  running : Bool
  abort : Bool
  suspend : Bool
deriving DecidableEq

/-- MAX_FILES is defined in tcpreplay_api.h, which is not under src.
Modelled from the spec: the sources array capacity, default 1024.  All
claim verdicts are symbolic in this value. -/
def MAX_FILES : Nat := 1024

/-- 2^32 - 1: the value a u_int32_t holds after post-decrementing 0. -/
def U32MAX : Nat := 4294967295

/-- DEFAULT_MTU comes from defines.h (not under src); 1500 is the Ethernet
default.  No claim depends on the value. -/
def DEFAULT_MTU : Int := 1500

def zero_timeval : timeval := ⟨0, 0⟩

def zero_stats : tcpreplay_stats_t := ⟨0, 0, 0, zero_timeval, zero_timeval⟩

/-- A zero-initialized sources[] slot (safe_malloc zero-fills the options
struct). -/
def zero_source : tcpreplay_source_t := ⟨.source_unset, none⟩

/-- Read sources[i]; slots beyond the written prefix are zero-initialized. -/
def arrGet (l : List tcpreplay_source_t) (i : Nat) : tcpreplay_source_t :=
  l.getD i zero_source

/-- Write sources[i], materializing intervening zero-initialized slots. -/
def arrSet (l : List tcpreplay_source_t) (i : Nat) (v : tcpreplay_source_t) :
    List tcpreplay_source_t :=
  (l ++ List.replicate (i + 1 - l.length) zero_source).set i v

/-- Write file_cache[i] through the file_cache pointer: when the pointer is
NULL (none) the store has no target and is dropped; the predicates below
record separately when the C code would have performed such a store. -/
def fcSet (fc : Option (List file_cache_t)) (i : Nat) (v : file_cache_t) :
    Option (List file_cache_t) :=
  fc.map (fun l => (l ++ List.replicate (i + 1 - l.length) ⟨0, false, none⟩).set i v)

/-- tcpreplay_seterr (macro over __tcpreplay_seterr, lines 748-767): formats
a message into ctx->errstr.  The file/function/line decoration is abstracted
into the message string. -/
def tcpreplay_seterr (ctx : tcpreplay_t) (msg : String) : tcpreplay_t :=
  {ctx with errstr := msg}

/-- tcpreplay_setwarn (lines 775-786). -/
def tcpreplay_setwarn (ctx : tcpreplay_t) (msg : String) : tcpreplay_t :=
  {ctx with warnstr := msg}

/-- tcpreplay_init (lines 92-138).  safe_malloc zero-fills both structs; the
function then sets loop=1, speed, accurate, mtu, limit_send and abort=false.
The accurate default depends on the build flag HAVE_ABSOLUTE_TIME; the
non-Apple default accurate_gtod is used (no claim depends on it).  The
fcntl warning path and the interface list are outside the claims and are
modelled as the success case. -/
def tcpreplay_init : tcpreplay_t :=
  { options :=
      { loop := 1
        sleep_accel := 0
        limit_send := -1
        mtu := DEFAULT_MTU
        use_pkthdr_len := false
        enable_file_cache := false
        accurate := .accurate_gtod
        speed := { mode := .speed_multiplier, speed := 1, pps_multi := 0, manual_callback := none }
        source_cnt := 0
        sources := []
        file_cache := none
        cachedata := false
        cache_packets := 0
        comment := none
        intf1_name := none
        intf2_name := none }
    intf1 := false
    intf2 := false
    errstr := ""
    warnstr := ""
    stats := zero_stats
    static_stats := zero_stats
    current_source := 0
    cache_byte := 0
    cache_bit := 0
    running := false
    abort := false
    suspend := false }

/-- tcpreplay_set_speed_mode (lines 434-441). -/
def tcpreplay_set_speed_mode (ctx : tcpreplay_t) (value : tcpreplay_speed_mode) :
    Int × tcpreplay_t :=
  (0, {ctx with options.speed.mode := value})

/-- tcpreplay_set_speed_speed (lines 447-453); float argument as surrogate. -/
def tcpreplay_set_speed_speed (ctx : tcpreplay_t) (value : Nat) : Int × tcpreplay_t :=
  (0, {ctx with options.speed.speed := value})

/-- tcpreplay_set_speed_pps_multi (lines 460-466). -/
def tcpreplay_set_speed_pps_multi (ctx : tcpreplay_t) (value : Int) : Int × tcpreplay_t :=
  (0, {ctx with options.speed.pps_multi := value})

/-- tcpreplay_set_loop (lines 471-477); the argument is a u_int32_t. -/
def tcpreplay_set_loop (ctx : tcpreplay_t) (value : Nat) : Int × tcpreplay_t :=
  (0, {ctx with options.loop := value % 4294967296})

/-- tcpreplay_set_sleep_accel (lines 482-488). -/
def tcpreplay_set_sleep_accel (ctx : tcpreplay_t) (value : Int) : Int × tcpreplay_t :=
  (0, {ctx with options.sleep_accel := value})

/-- tcpreplay_set_use_pkthdr_len (lines 494-500). -/
def tcpreplay_set_use_pkthdr_len (ctx : tcpreplay_t) (value : Bool) : Int × tcpreplay_t :=
  (0, {ctx with options.use_pkthdr_len := value})

/-- tcpreplay_set_mtu (lines 505-511): stores the value unconditionally and
returns 0; the C source performs no range check. -/
def tcpreplay_set_mtu (ctx : tcpreplay_t) (value : Int) : Int × tcpreplay_t :=
  (0, {ctx with options.mtu := value})

/-- tcpreplay_set_accurate (lines 516-522). -/
def tcpreplay_set_accurate (ctx : tcpreplay_t) (value : tcpreplay_accurate) :
    Int × tcpreplay_t :=
  (0, {ctx with options.accurate := value})

/-- tcpreplay_set_file_cache (lines 530-536). -/
def tcpreplay_set_file_cache (ctx : tcpreplay_t) (value : Bool) : Int × tcpreplay_t :=
  (0, {ctx with options.enable_file_cache := value})

/-- tcpreplay_add_pcapfile (lines 544-570).  When source_cnt < MAX_FILES:
writes sources[source_cnt].filename, writes the three fields of
file_cache[source_cnt] (a store through the file_cache pointer, see fcSet),
increments source_cnt, returns 0.  Otherwise seterr and -1.  The C code
leaves sources[source_cnt].type unassigned. -/
def tcpreplay_add_pcapfile (ctx : tcpreplay_t) (pcap_file : String) : Int × tcpreplay_t :=
  if ctx.options.source_cnt < MAX_FILES then
    let cnt := ctx.options.source_cnt
    let slot := {arrGet ctx.options.sources cnt with filename := some pcap_file}
    let c1 := {ctx with options.sources := arrSet ctx.options.sources cnt slot}
    let c2 := {c1 with options.file_cache := fcSet c1.options.file_cache cnt ⟨cnt, false, none⟩}
    (0, {c2 with options.source_cnt := cnt + 1})
  else
    (-1, tcpreplay_seterr ctx "Unable to add more then 1024 files")

/-- True when the line-558 store file_cache[source_cnt] would dereference a
NULL file_cache pointer: the success branch is taken while the pointer is
absent. -/
def add_pcapfile_touches_absent (ctx : tcpreplay_t) : Bool :=
  decide (ctx.options.source_cnt < MAX_FILES) && ctx.options.file_cache.isNone

/-- tcpreplay_set_limit_send (lines 575-581). -/
def tcpreplay_set_limit_send (ctx : tcpreplay_t) (value : Int) : Int × tcpreplay_t :=
  (0, {ctx with options.limit_send := value})

/-- tcpreplay_set_tcpprep_cache (lines 589-607).  Fails when
source_cnt > 1.  Otherwise calls read_cache, an external collaborator
(common/cache.c, outside this file) whose contract per the spec is
read_cache(path) -> (bit_buffer, packet_count, comment): the cache buffer
becomes non-NULL, cache_packets receives the count and comment the comment
string; count and comment are parameters of the model. -/
def tcpreplay_set_tcpprep_cache (ctx : tcpreplay_t) (count : Int) (cmt : String) :
    Int × tcpreplay_t :=
  if ctx.options.source_cnt > 1 then
    (-1, tcpreplay_seterr ctx "Unable to use tcpprep cache file with a single pcap file")
  else
    (0, {ctx with options.cachedata := true, options.cache_packets := count, options.comment := some cmt})

/-- tcpreplay_set_manual_callback (lines 668-682); the callback pointer is
modelled by presence. -/
def tcpreplay_set_manual_callback (ctx : tcpreplay_t) : Int × tcpreplay_t :=
  if ctx.options.speed.mode ≠ .speed_oneatatime then
    (-1, tcpreplay_seterr ctx
      "Unable to set manual callback because speed mode is not speed_oneatatime")
  else
    (0, {ctx with options.speed.manual_callback := some ()})

/-- tcpreplay_get_pkts_sent (lines 687-694): copies the live counter into
the snapshot and returns it. -/
def tcpreplay_get_pkts_sent (ctx : tcpreplay_t) : Nat × tcpreplay_t :=
  (ctx.stats.pkts_sent, {ctx with static_stats.pkts_sent := ctx.stats.pkts_sent})

/-- tcpreplay_get_bytes_sent (lines 699-705). -/
def tcpreplay_get_bytes_sent (ctx : tcpreplay_t) : Nat × tcpreplay_t :=
  (ctx.stats.bytes_sent, {ctx with static_stats.bytes_sent := ctx.stats.bytes_sent})

/-- tcpreplay_get_failed (lines 710-716). -/
def tcpreplay_get_failed (ctx : tcpreplay_t) : Nat × tcpreplay_t :=
  (ctx.stats.failed, {ctx with static_stats.failed := ctx.stats.failed})

/-- tcpreplay_get_start_time (lines 721-727).  The C code memcpy-s
ctx->stats.end_time into ctx->static_stats.start_time and returns a pointer
to the latter; the returned value is the pointee after the call. -/
def tcpreplay_get_start_time (ctx : tcpreplay_t) : timeval × tcpreplay_t :=
  (ctx.stats.end_time, {ctx with static_stats.start_time := ctx.stats.end_time})

/-- tcpreplay_get_end_time (lines 732-738). -/
def tcpreplay_get_end_time (ctx : tcpreplay_t) : timeval × tcpreplay_t :=
  (ctx.stats.end_time, {ctx with static_stats.end_time := ctx.stats.end_time})

/-- tcpreplay_get_stats (lines 977-988): copies the whole live record into
the snapshot and returns it. -/
def tcpreplay_get_stats (ctx : tcpreplay_t) : tcpreplay_stats_t × tcpreplay_t :=
  (ctx.stats, {ctx with static_stats := ctx.stats})

/-- tcpreplay_get_source_count (lines 994-999). -/
def tcpreplay_get_source_count (ctx : tcpreplay_t) : Nat :=
  ctx.options.source_cnt

/-- tcpreplay_get_current_source (lines 1004-1009). -/
def tcpreplay_get_current_source (ctx : tcpreplay_t) : Nat :=
  ctx.current_source

/-- tcpreplay_geterr (lines 66-71). -/
def tcpreplay_geterr (ctx : tcpreplay_t) : String :=
  ctx.errstr

/-- tcpreplay_getwarn (lines 79-84). -/
def tcpreplay_getwarn (ctx : tcpreplay_t) : String :=
  ctx.warnstr

/-- tcpreplay_abort (lines 901-914): sets the abort flag; the
sendpacket_abort calls touch only the interface handles. -/
def tcpreplay_abort (ctx : tcpreplay_t) : Int × tcpreplay_t :=
  (0, {ctx with abort := true})

/-- tcpreplay_suspend (lines 925-931). -/
def tcpreplay_suspend (ctx : tcpreplay_t) : Int × tcpreplay_t :=
  (0, {ctx with suspend := true})

/-- tcpreplay_restart (lines 938-944). -/
def tcpreplay_restart (ctx : tcpreplay_t) : Int × tcpreplay_t :=
  (0, {ctx with suspend := false})

/-- tcpreplay_is_suspended (lines 951-956). -/
def tcpreplay_is_suspended (ctx : tcpreplay_t) : Bool :=
  ctx.suspend

/-- tcpreplay_is_running (lines 963-968). -/
def tcpreplay_is_running (ctx : tcpreplay_t) : Bool :=
  ctx.running

/-- Modelled from the spec: the per-source drivers replay_file, replay_fd
and replay_cache live in replay.c, which is not under src.  Each takes the
context and the current source index and returns a result code with the
updated context; they are kept fully parametric so theorems quantify over
every possible driver behaviour. -/
structure ReplayDrivers where
  replay_file : tcpreplay_t → Nat → Int × tcpreplay_t
  replay_fd : tcpreplay_t → Nat → Int × tcpreplay_t
  replay_cache : tcpreplay_t → Nat → Int × tcpreplay_t

/-- The switch on sources[current_source].type (lines 837-850 / 868-881).
The default branch sets errstr and rcode = -1. -/
def replayDispatch (drv : ReplayDrivers) (ctx : tcpreplay_t) : Int × tcpreplay_t :=
  match (arrGet ctx.options.sources ctx.current_source).type with
  | .source_filename => drv.replay_file ctx ctx.current_source
  | .source_fd => drv.replay_fd ctx ctx.current_source
  | .source_cache => drv.replay_cache ctx ctx.current_source
  | .source_unset => (-1, tcpreplay_seterr ctx "Invalid source type")

/-- The inner for-loop over sources (lines 831-856, shared with 862-886):
while current_source < source_cnt, reset the cache markers, dispatch, on
rcode < 0 fail with the resulting state, else increment current_source.
Fuel-indexed; none means the fuel ran out before the loop finished. -/
def replayPass (drv : ReplayDrivers) : Nat → tcpreplay_t → Option (Except tcpreplay_t tcpreplay_t)
  | 0, _ => none
  | fuel + 1, ctx =>
    if ctx.current_source < ctx.options.source_cnt then
      let body := {ctx with cache_byte := 0, cache_bit := 0}
      let res := replayDispatch drv body
      if res.1 < 0 then some (.error res.2)
      else replayPass drv fuel {res.2 with current_source := res.2.current_source + 1}
    else some (.ok ctx)

/-- The limited main loop `while (ctx->options->loop--)` (lines 828-858)
with the fall-through `running = false; return 0` (lines 890-891).  The
u_int32_t post-decrement tests the current value, then wraps 0 to U32MAX. -/
def replayLoopN (drv : ReplayDrivers) : Nat → tcpreplay_t → Option (Int × tcpreplay_t)
  | 0, _ => none
  | fuel + 1, ctx =>
    let l := ctx.options.loop
    let dec := {ctx with options.loop := if l = 0 then U32MAX else l - 1}
    if l = 0 then some (0, {dec with running := false})
    else
      match replayPass drv fuel {dec with current_source := 0} with
      | none => none
      | some (.error e) => some (-1, {e with running := false})
      | some (.ok k) => replayLoopN drv fuel k

/-- The forever branch `while (1)` (lines 861-887): returns only when a
per-source driver fails. -/
def replayForever (drv : ReplayDrivers) : Nat → tcpreplay_t → Option (Int × tcpreplay_t)
  | 0, _ => none
  | fuel + 1, ctx =>
    match replayPass drv fuel {ctx with current_source := 0} with
    | none => none
    | some (.error e) => some (-1, {e with running := false})
    | some (.ok k) => replayForever drv fuel k

/-- The file-cache initialisation for-loop (lines 813-817): writes
file_cache[i] for i < source_cnt through the file_cache pointer. -/
def fcInitLoop (fc : Option (List file_cache_t)) : Nat → Option (List file_cache_t)
  | 0 => fc
  | i + 1 => fcSet (fcInitLoop fc i) i ⟨i, false, none⟩

/-- The guarded cache setup (lines 811-818): runs exactly when
enable_file_cache is set and the file_cache pointer is NULL; the loop body
then stores through that NULL pointer (dropped by fcSet, recorded by
replay_cache_init_touches_absent). -/
def replayCacheInit (ctx : tcpreplay_t) : tcpreplay_t :=
  if ctx.options.enable_file_cache && ctx.options.file_cache.isNone then
    let fc := fcInitLoop ctx.options.file_cache ctx.options.source_cnt
    {ctx with options.file_cache := fc}
  else ctx

/-- True when the cache-init loop body (lines 814-816) executes at least
once while file_cache is NULL, i.e. the stores have an absent target. -/
def replay_cache_init_touches_absent (ctx : tcpreplay_t) : Bool :=
  ctx.options.enable_file_cache && ctx.options.file_cache.isNone
    && decide (0 < ctx.options.source_cnt)

/-- tcpreplay_replay (lines 796-892).  clock models gettimeofday: some t
writes t into stats.start_time, none is the failure branch.  fuel bounds
the number of loop iterations the model executes; none means the C code
would still be looping. -/
def tcpreplay_replay (drv : ReplayDrivers) (clock : Option timeval) (fuel : Nat)
    (ctx : tcpreplay_t) (idx : Int) : Option (Int × tcpreplay_t) :=
  if idx < 0 ∨ idx > (ctx.options.source_cnt : Int) then
    some (-1, tcpreplay_seterr ctx "invalid source index value")
  else
    let c1 := replayCacheInit ctx
    match clock with
    | none => some (-1, tcpreplay_seterr c1 "gettimeofday failed")
    | some t =>
      let c2 := {c1 with stats.start_time := t}
      let c3 := {c2 with running := true}
      if 0 < c3.options.loop then
        replayLoopN drv fuel c3
      else
        replayForever drv fuel c3

/-- A driver triple that succeeds immediately without touching the context;
used to instantiate universally quantified theorems at concrete inputs. -/
def noDriver : ReplayDrivers :=
  ⟨fun s _ => (0, s), fun s _ => (0, s), fun s _ => (0, s)⟩

/-- A driver triple that counts its invocations in stats.pkts_sent; used to
observe which sources a replay call actually visits. -/
def countDriver : ReplayDrivers :=
  ⟨fun s _ => (0, {s with stats.pkts_sent := s.stats.pkts_sent + 1}),
   fun s _ => (0, {s with stats.pkts_sent := s.stats.pkts_sent + 1}),
   fun s _ => (0, {s with stats.pkts_sent := s.stats.pkts_sent + 1})⟩

/-- The configuration, control and observer operations of the API, as data;
used to state reachability and flag-stickiness properties.  Each constructor
carries the arguments of the corresponding C call. -/
inductive ApiOp where
  | op_set_speed_mode (v : tcpreplay_speed_mode)
  | op_set_speed_speed (v : Nat)
  | op_set_speed_pps_multi (v : Int)
  | op_set_loop (v : Nat)
  | op_set_sleep_accel (v : Int)
  | op_set_use_pkthdr_len (v : Bool)
  | op_set_mtu (v : Int)
  | op_set_accurate (v : tcpreplay_accurate)
  | op_set_file_cache (v : Bool)
  | op_add_pcapfile (f : String)
  | op_set_limit_send (v : Int)
  | op_set_tcpprep_cache (n : Int) (c : String)
  | op_set_manual_callback
  | op_abort
  | op_suspend
  | op_restart
  | op_get_pkts_sent
  | op_get_bytes_sent
  | op_get_failed
  | op_get_start_time
  | op_get_end_time
  | op_get_stats

/-- State transition of one API operation (result codes and returned values
discarded). -/
def applyOp : ApiOp → tcpreplay_t → tcpreplay_t
  | .op_set_speed_mode v, s => (tcpreplay_set_speed_mode s v).2
  | .op_set_speed_speed v, s => (tcpreplay_set_speed_speed s v).2
  | .op_set_speed_pps_multi v, s => (tcpreplay_set_speed_pps_multi s v).2
  | .op_set_loop v, s => (tcpreplay_set_loop s v).2
  | .op_set_sleep_accel v, s => (tcpreplay_set_sleep_accel s v).2
  | .op_set_use_pkthdr_len v, s => (tcpreplay_set_use_pkthdr_len s v).2
  | .op_set_mtu v, s => (tcpreplay_set_mtu s v).2
  | .op_set_accurate v, s => (tcpreplay_set_accurate s v).2
  | .op_set_file_cache v, s => (tcpreplay_set_file_cache s v).2
  | .op_add_pcapfile f, s => (tcpreplay_add_pcapfile s f).2
  | .op_set_limit_send v, s => (tcpreplay_set_limit_send s v).2
  | .op_set_tcpprep_cache n c, s => (tcpreplay_set_tcpprep_cache s n c).2
  | .op_set_manual_callback, s => (tcpreplay_set_manual_callback s).2
  | .op_abort, s => (tcpreplay_abort s).2
  | .op_suspend, s => (tcpreplay_suspend s).2
  | .op_restart, s => (tcpreplay_restart s).2
  | .op_get_pkts_sent, s => (tcpreplay_get_pkts_sent s).2
  | .op_get_bytes_sent, s => (tcpreplay_get_bytes_sent s).2
  | .op_get_failed, s => (tcpreplay_get_failed s).2
  | .op_get_start_time, s => (tcpreplay_get_start_time s).2
  | .op_get_end_time, s => (tcpreplay_get_end_time s).2
  | .op_get_stats, s => (tcpreplay_get_stats s).2

/-- Context states reachable from tcpreplay_init through the configuration,
control and observer operations.  The replay call is deliberately omitted,
so the inductive under-approximates the true reachable set; that is sound
for exhibiting reachable states. -/
inductive Reachable : tcpreplay_t → Prop where
  | init : Reachable tcpreplay_init
  | step (op : ApiOp) {s : tcpreplay_t} : Reachable s → Reachable (applyOp op s)

/-- Project the context out of a per-pass outcome (failed or completed). -/
def exState : Except tcpreplay_t tcpreplay_t → tcpreplay_t
  | .error e => e
  | .ok k => k

/-- The drivers leave the abort flag untouched (the real drivers in
replay.c poll the flag but do not write it). -/
def DriversPreserveAbort (drv : ReplayDrivers) : Prop :=
  (∀ (s : tcpreplay_t) (i : Nat), ((drv.replay_file s i).2).abort = s.abort) ∧
  (∀ (s : tcpreplay_t) (i : Nat), ((drv.replay_fd s i).2).abort = s.abort) ∧
  (∀ (s : tcpreplay_t) (i : Nat), ((drv.replay_cache s i).2).abort = s.abort)

/-- The drivers leave the whole options record untouched. -/
def DriversPreserveOptions (drv : ReplayDrivers) : Prop :=
  (∀ (s : tcpreplay_t) (i : Nat), ((drv.replay_file s i).2).options = s.options) ∧
  (∀ (s : tcpreplay_t) (i : Nat), ((drv.replay_fd s i).2).options = s.options) ∧
  (∀ (s : tcpreplay_t) (i : Nat), ((drv.replay_cache s i).2).options = s.options)

theorem fcSet_none (i : Nat) (v : file_cache_t) : fcSet none i v = none := rfl

theorem fcInitLoop_none : ∀ n, fcInitLoop (none : Option (List file_cache_t)) n = none
  | 0 => rfl
  | n + 1 => by
    show fcSet (fcInitLoop none n) n ⟨n, false, none⟩ = none
    rw [fcInitLoop_none n]
    exact fcSet_none n _

/-- In the embedding the guarded cache setup is the identity: its loop only
runs when the file_cache pointer is NULL, and a store through an absent
pointer has no target (the C code would fault there; see the claim about
absent-storage accesses). -/
theorem replayCacheInit_eq (s : tcpreplay_t) : replayCacheInit s = s := by
  unfold replayCacheInit
  split
  · rename_i h
    have hfc : s.options.file_cache = none :=
      Option.isNone_iff_eq_none.mp ((Bool.and_eq_true _ _).mp h).2
    show ({s with options.file_cache := fcInitLoop s.options.file_cache s.options.source_cnt} : tcpreplay_t) = s
    rw [hfc, fcInitLoop_none, ← hfc]
  · rfl

theorem replayDispatch_abort (drv : ReplayDrivers) (hd : DriversPreserveAbort drv)
    (ctx : tcpreplay_t) : ((replayDispatch drv ctx).2).abort = ctx.abort := by
  unfold replayDispatch
  split
  · exact hd.1 ctx ctx.current_source
  · exact hd.2.1 ctx ctx.current_source
  · exact hd.2.2 ctx ctx.current_source
  · rfl

theorem replayDispatch_options (drv : ReplayDrivers) (hd : DriversPreserveOptions drv)
    (ctx : tcpreplay_t) : ((replayDispatch drv ctx).2).options = ctx.options := by
  unfold replayDispatch
  split
  · exact hd.1 ctx ctx.current_source
  · exact hd.2.1 ctx ctx.current_source
  · exact hd.2.2 ctx ctx.current_source
  · rfl

theorem replayPass_abort (drv : ReplayDrivers) (hd : DriversPreserveAbort drv) :
    ∀ (fuel : Nat) (ctx : tcpreplay_t) (r : Except tcpreplay_t tcpreplay_t),
      replayPass drv fuel ctx = some r → (exState r).abort = ctx.abort := by
  intro fuel
  induction fuel with
  | zero => intro ctx r h; simp [replayPass] at h
  | succ n ih =>
    intro ctx r h
    simp only [replayPass] at h
    split at h
    · split at h
      · injection h with h2
        subst h2
        exact replayDispatch_abort drv hd _
      · have := ih _ _ h
        exact this.trans (replayDispatch_abort drv hd _)
    · injection h with h2
      subst h2
      rfl

theorem replayPass_options (drv : ReplayDrivers) (hd : DriversPreserveOptions drv) :
    ∀ (fuel : Nat) (ctx : tcpreplay_t) (r : Except tcpreplay_t tcpreplay_t),
      replayPass drv fuel ctx = some r → (exState r).options = ctx.options := by
  intro fuel
  induction fuel with
  | zero => intro ctx r h; simp [replayPass] at h
  | succ n ih =>
    intro ctx r h
    simp only [replayPass] at h
    split at h
    · split at h
      · injection h with h2
        subst h2
        exact replayDispatch_options drv hd _
      · have := ih _ _ h
        exact this.trans (replayDispatch_options drv hd _)
    · injection h with h2
      subst h2
      rfl

theorem replayLoopN_running (drv : ReplayDrivers) :
    ∀ (fuel : Nat) (ctx : tcpreplay_t) (rc : Int) (s2 : tcpreplay_t),
      replayLoopN drv fuel ctx = some (rc, s2) → s2.running = false := by
  intro fuel
  induction fuel with
  | zero => intro ctx rc s2 h; simp [replayLoopN] at h
  | succ n ih =>
    intro ctx rc s2 h
    simp only [replayLoopN] at h
    split at h
    · injection h with h2
      injection h2 with h3 h4
      subst h4
      rfl
    · split at h
      · exact absurd h (by simp)
      · injection h with h2
        injection h2 with h3 h4
        subst h4
        rfl
      · exact ih _ _ _ h

theorem replayForever_running (drv : ReplayDrivers) :
    ∀ (fuel : Nat) (ctx : tcpreplay_t) (rc : Int) (s2 : tcpreplay_t),
      replayForever drv fuel ctx = some (rc, s2) → s2.running = false := by
  intro fuel
  induction fuel with
  | zero => intro ctx rc s2 h; simp [replayForever] at h
  | succ n ih =>
    intro ctx rc s2 h
    simp only [replayForever] at h
    split at h
    · exact absurd h (by simp)
    · injection h with h2
      injection h2 with h3 h4
      subst h4
      rfl
    · exact ih _ _ _ h

theorem replayLoopN_abort (drv : ReplayDrivers) (hd : DriversPreserveAbort drv) :
    ∀ (fuel : Nat) (ctx : tcpreplay_t) (rc : Int) (s2 : tcpreplay_t),
      replayLoopN drv fuel ctx = some (rc, s2) → s2.abort = ctx.abort := by
  intro fuel
  induction fuel with
  | zero => intro ctx rc s2 h; simp [replayLoopN] at h
  | succ n ih =>
    intro ctx rc s2 h
    simp only [replayLoopN] at h
    split at h
    · injection h with h2
      injection h2 with h3 h4
      subst h4
      rfl
    · split at h
      · exact absurd h (by simp)
      · rename_i heq
        injection h with h2
        injection h2 with h3 h4
        subst h4
        exact replayPass_abort drv hd _ _ _ heq
      · rename_i heq
        have hk := replayPass_abort drv hd _ _ _ heq
        exact (ih _ _ _ h).trans hk

theorem replayForever_abort (drv : ReplayDrivers) (hd : DriversPreserveAbort drv) :
    ∀ (fuel : Nat) (ctx : tcpreplay_t) (rc : Int) (s2 : tcpreplay_t),
      replayForever drv fuel ctx = some (rc, s2) → s2.abort = ctx.abort := by
  intro fuel
  induction fuel with
  | zero => intro ctx rc s2 h; simp [replayForever] at h
  | succ n ih =>
    intro ctx rc s2 h
    simp only [replayForever] at h
    split at h
    · exact absurd h (by simp)
    · rename_i heq
      injection h with h2
      injection h2 with h3 h4
      subst h4
      exact replayPass_abort drv hd _ _ _ heq
    · rename_i heq
      have hk := replayPass_abort drv hd _ _ _ heq
      exact (ih _ _ _ h).trans hk

theorem replayLoopN_options (drv : ReplayDrivers) (hd : DriversPreserveOptions drv) :
    ∀ (fuel : Nat) (ctx : tcpreplay_t) (s2 : tcpreplay_t),
      replayLoopN drv fuel ctx = some (0, s2) →
      s2.options = {ctx.options with loop := U32MAX} := by
  intro fuel
  induction fuel with
  | zero => intro ctx s2 h; simp [replayLoopN] at h
  | succ n ih =>
    intro ctx s2 h
    simp only [replayLoopN] at h
    split at h
    · rename_i hl
      injection h with h2
      injection h2 with h3 h4
      subst h4
      rfl
    · split at h
      · exact absurd h (by simp)
      · injection h with h2
        injection h2 with h3 h4
        exact absurd h3 (by decide)
      · rename_i k heq
        have h1 := ih _ _ h
        have hk := replayPass_options drv hd _ _ _ heq
        simp only [exState] at hk
        rw [h1, hk]

theorem replayPass_done (drv : ReplayDrivers) (fuel : Nat) (t : tcpreplay_t)
    (h : ¬ t.current_source < t.options.source_cnt) (hf : 0 < fuel) :
    replayPass drv fuel t = some (.ok t) := by
  obtain ⟨f, rfl⟩ : ∃ f, fuel = f + 1 := ⟨fuel - 1, by omega⟩
  simp [replayPass, h]

theorem replayLoopN_cnt0 (drv : ReplayDrivers) :
    ∀ (l fuel : Nat) (s : tcpreplay_t),
      s.options.source_cnt = 0 → s.options.loop = l → l + 1 ≤ fuel →
      replayLoopN drv fuel {s with current_source := 0} =
        some (0, {s with options.loop := U32MAX, current_source := 0, running := false}) := by
  intro l
  induction l with
  | zero =>
    intro fuel s hcnt hl hf
    obtain ⟨f, rfl⟩ : ∃ f, fuel = f + 1 := ⟨fuel - 1, by omega⟩
    simp only [replayLoopN]
    rw [show ({s with current_source := 0} : tcpreplay_t).options.loop = 0 from hl]
    rfl
  | succ n ih =>
    intro fuel s hcnt hl hf
    obtain ⟨f, rfl⟩ : ∃ f, fuel = f + 1 := ⟨fuel - 1, by omega⟩
    obtain ⟨opts, i1, i2, es, ws, st, sst, cs, cb, cbit, rn, ab, su⟩ := s
    obtain ⟨lp, sa, ls, mt, up, efc, acc, sp, sc, srcs, fc, cd, cp, cm, n1, n2⟩ := opts
    simp only at hcnt hl
    subst hcnt
    subst hl
    simp only [replayLoopN, Nat.add_sub_cancel]
    rw [if_neg (Nat.succ_ne_zero n)]
    rw [if_neg (Nat.succ_ne_zero n)]
    rw [replayPass_done drv f
      ⟨⟨n, sa, ls, mt, up, efc, acc, sp, 0, srcs, fc, cd, cp, cm, n1, n2⟩, i1, i2, es, ws, st, sst, 0, cb, cbit, rn, ab, su⟩
      (Nat.lt_irrefl 0) (by omega)]
    exact ih f ⟨⟨n, sa, ls, mt, up, efc, acc, sp, 0, srcs, fc, cd, cp, cm, n1, n2⟩, i1, i2, es, ws, st, sst, 0, cb, cbit, rn, ab, su⟩ rfl rfl (by omega)

theorem tcpreplay_replay_running_aux (drv : ReplayDrivers) (clock : Option timeval)
    (fuel : Nat) (s : tcpreplay_t) (idx : Int) (rc : Int) (s2 : tcpreplay_t)
    (h0 : s.running = false)
    (h : tcpreplay_replay drv clock fuel s idx = some (rc, s2)) :
    s2.running = false := by
  cases clock with
  | none =>
    simp only [tcpreplay_replay, replayCacheInit_eq] at h
    split at h
    · injection h with h2
      injection h2 with h3 h4
      subst h4
      exact h0
    · injection h with h2
      injection h2 with h3 h4
      subst h4
      exact h0
  | some t =>
    simp only [tcpreplay_replay, replayCacheInit_eq] at h
    split at h
    · injection h with h2
      injection h2 with h3 h4
      subst h4
      exact h0
    · split at h
      · exact replayLoopN_running drv _ _ _ _ h
      · exact replayForever_running drv _ _ _ _ h

theorem tcpreplay_replay_abort_aux (drv : ReplayDrivers) (clock : Option timeval)
    (fuel : Nat) (s : tcpreplay_t) (idx : Int) (rc : Int) (s2 : tcpreplay_t)
    (hd : DriversPreserveAbort drv)
    (h : tcpreplay_replay drv clock fuel s idx = some (rc, s2)) :
    s2.abort = s.abort := by
  cases clock with
  | none =>
    simp only [tcpreplay_replay, replayCacheInit_eq] at h
    split at h
    · injection h with h2
      injection h2 with h3 h4
      subst h4
      rfl
    · injection h with h2
      injection h2 with h3 h4
      subst h4
      rfl
  | some t =>
    simp only [tcpreplay_replay, replayCacheInit_eq] at h
    split at h
    · injection h with h2
      injection h2 with h3 h4
      subst h4
      rfl
    · split at h
      · have := replayLoopN_abort drv hd _ _ _ _ h
        exact this
      · have := replayForever_abort drv hd _ _ _ _ h
        exact this

theorem tcpreplay_replay_options_aux (drv : ReplayDrivers) (clock : Option timeval)
    (fuel : Nat) (s : tcpreplay_t) (idx : Int) (s2 : tcpreplay_t)
    (hd : DriversPreserveOptions drv) (hl : 0 < s.options.loop)
    (h : tcpreplay_replay drv clock fuel s idx = some (0, s2)) :
    s2.options = {s.options with loop := U32MAX} := by
  cases clock with
  | none =>
    simp only [tcpreplay_replay, replayCacheInit_eq] at h
    split at h
    · injection h with h2
      injection h2 with h3 h4
      exact absurd h3 (by decide)
    · injection h with h2
      injection h2 with h3 h4
      exact absurd h3 (by decide)
  | some t =>
    simp only [tcpreplay_replay, replayCacheInit_eq] at h
    split at h
    · injection h with h2
      injection h2 with h3 h4
      exact absurd h3 (by decide)
    · have := replayLoopN_options drv hd _ _ _ h
      exact this

/-- Projection-erasing map used to compare two replay runs up to the value
the running flag happens to retain on pre-start early returns. -/
def eraseRunning : Option (Int × tcpreplay_t) → Option (Int × tcpreplay_t) :=
  Option.map (fun p => (p.1, {p.2 with running := false}))

/-- A context with exactly one pcap added through the API. -/
def sOne : tcpreplay_t := (tcpreplay_add_pcapfile tcpreplay_init "sample.pcap").2

/-- A context configured with two filename-typed sources. -/
def sTyped2 : tcpreplay_t :=
  {tcpreplay_init with options.source_cnt := 2, options.sources := [⟨.source_filename, some "a.pcap"⟩, ⟨.source_filename, some "b.pcap"⟩]}

/-- A context whose loop counter sits at the u32 maximum. -/
def sBig : tcpreplay_t := {tcpreplay_init with options.loop := U32MAX}

/-- C1 (code_bug evidence): with one configured source, tcpreplay_replay
applied to idx = -1 returns the InvalidArgument error without starting a
replay, although the doc comment of the C function promises "-1 for all
pcaps"; a call at idx = source_cnt (one past the last valid index) is
accepted; and idx is otherwise ignored: with two sources, a call at the
in-range idx = 0 and a call at the out-of-range idx = 2 each invoke the
per-source driver twice, i.e. replay every source. -/
theorem c1_replay_idx_code_bug :
    sOne.options.source_cnt = 1 ∧
    tcpreplay_replay noDriver (some ⟨0, 0⟩) 5 sOne (-1) =
      some (-1, tcpreplay_seterr sOne "invalid source index value") ∧
    Option.map (fun p : Int × tcpreplay_t => (p.1, p.2.stats.pkts_sent))
      (tcpreplay_replay countDriver (some ⟨0, 0⟩) 9 sTyped2 2) = some (0, 2) ∧
    Option.map (fun p : Int × tcpreplay_t => (p.1, p.2.stats.pkts_sent))
      (tcpreplay_replay countDriver (some ⟨0, 0⟩) 9 sTyped2 0) = some (0, 2) := by
  exact ⟨rfl, by decide, by decide, by decide⟩

/-- C2 counterexample: a call on a context whose running flag is true does
not return the claimed AlreadyRunning error: with loop = 1 and no sources
it returns 0, overwrites the loop counter and clears the running flag. -/
theorem c2_counterexample :
    ({tcpreplay_init with running := true} : tcpreplay_t).running = true ∧
    tcpreplay_replay noDriver (some ⟨0, 0⟩) 3 {tcpreplay_init with running := true} 0 =
      some (0, {tcpreplay_init with options.loop := U32MAX}) := by
  exact ⟨rfl, by decide⟩

/-- C2 (amended): tcpreplay_replay never reads the running flag: a call
behaves identically whatever the flag held at entry — same return code and
same final state, except that the entry value of the flag is retained by
the two early returns that precede the start of the replay (the comparison
below erases that single field). -/
theorem c2_no_running_check (drv : ReplayDrivers) (clock : Option timeval) (fuel : Nat)
    (s : tcpreplay_t) (idx : Int) (b1 b2 : Bool) :
    eraseRunning (tcpreplay_replay drv clock fuel {s with running := b1} idx) =
    eraseRunning (tcpreplay_replay drv clock fuel {s with running := b2} idx) := by
  by_cases hv : idx < 0 ∨ idx > (s.options.source_cnt : Int)
  · cases clock <;>
      simp [tcpreplay_replay, replayCacheInit_eq, hv, eraseRunning, tcpreplay_seterr]
  · cases clock <;>
      simp [tcpreplay_replay, replayCacheInit_eq, hv, eraseRunning, tcpreplay_seterr]

/-- C3 (confirmed): for every driver behaviour, clock outcome, fuel, index
and context whose running flag is false at entry, every value that
tcpreplay_replay returns — early validation error, clock error, per-source
driver error or normal completion — carries running = false. -/
theorem c3_running_false_at_return (drv : ReplayDrivers) (clock : Option timeval)
    (fuel : Nat) (s : tcpreplay_t) (idx : Int) (rc : Int) (s2 : tcpreplay_t)
    (h0 : s.running = false)
    (h : tcpreplay_replay drv clock fuel s idx = some (rc, s2)) :
    s2.running = false :=
  tcpreplay_replay_running_aux drv clock fuel s idx rc s2 h0 h

/-- C3 witness: the theorem instantiated on a concrete normal completion
from the freshly initialized context. -/
theorem c3_witness :
    tcpreplay_init.running = false ∧
    ({tcpreplay_init with options.loop := U32MAX} : tcpreplay_t).running = false :=
  ⟨rfl, c3_running_false_at_return noDriver (some ⟨0, 0⟩) 3 tcpreplay_init 0 0
    {tcpreplay_init with options.loop := U32MAX} rfl (by decide)⟩

/-- C4 (code_bug evidence): on a context whose live stats hold
start_time = (1, 0) and end_time = (2, 0), tcpreplay_get_start_time copies
stats.end_time — not stats.start_time — into static_stats.start_time and
returns (2, 0), differing from the start_time the claim says it snapshots. -/
theorem c4_get_start_time_code_bug :
    (tcpreplay_get_start_time {tcpreplay_init with stats.start_time := ⟨1, 0⟩, stats.end_time := ⟨2, 0⟩}).1 =
      ({tcpreplay_init with stats.start_time := ⟨1, 0⟩, stats.end_time := ⟨2, 0⟩} : tcpreplay_t).stats.end_time ∧
    (tcpreplay_get_start_time {tcpreplay_init with stats.start_time := ⟨1, 0⟩, stats.end_time := ⟨2, 0⟩}).1 ≠
      ({tcpreplay_init with stats.start_time := ⟨1, 0⟩, stats.end_time := ⟨2, 0⟩} : tcpreplay_t).stats.start_time ∧
    ((tcpreplay_get_start_time {tcpreplay_init with stats.start_time := ⟨1, 0⟩, stats.end_time := ⟨2, 0⟩}).2).static_stats.start_time = (⟨2, 0⟩ : timeval) := by
  exact ⟨rfl, by decide, rfl⟩

/-- C5 counterexample: loading a tcpprep cache with zero sources succeeds,
so a reachable state has the cache present with source_cnt = 0, and two
further add_pcapfile calls on it reach a state with the cache present and
source_cnt = 2 — both violating the claimed invariant |sources| = 1. -/
theorem c5_counterexample :
    Reachable (applyOp (.op_set_tcpprep_cache 8 "cmt") tcpreplay_init) ∧
    (applyOp (.op_set_tcpprep_cache 8 "cmt") tcpreplay_init).options.cachedata = true ∧
    (applyOp (.op_set_tcpprep_cache 8 "cmt") tcpreplay_init).options.source_cnt = 0 ∧
    Reachable (applyOp (.op_add_pcapfile "b.pcap") (applyOp (.op_add_pcapfile "a.pcap") (applyOp (.op_set_tcpprep_cache 8 "cmt") tcpreplay_init))) ∧
    (applyOp (.op_add_pcapfile "b.pcap") (applyOp (.op_add_pcapfile "a.pcap") (applyOp (.op_set_tcpprep_cache 8 "cmt") tcpreplay_init))).options.cachedata = true ∧
    (applyOp (.op_add_pcapfile "b.pcap") (applyOp (.op_add_pcapfile "a.pcap") (applyOp (.op_set_tcpprep_cache 8 "cmt") tcpreplay_init))).options.source_cnt = 2 :=
  ⟨.step _ .init, by decide, by decide,
   .step _ (.step _ (.step _ .init)), by decide, by decide⟩

/-- C5 (amended): tcpreplay_set_tcpprep_cache fails exactly when more than
one source is configured (leaving the cache and the count unchanged) and
succeeds with zero or one sources, loading the cache and leaving source_cnt
unchanged; the guarantee is only source_cnt ≤ 1 at the successful call:
tcpreplay_add_pcapfile never consults the cache, so later calls can move
source_cnt past 1 while the cache stays present. -/
theorem c5_tcpprep_cache_amended :
    (∀ (s : tcpreplay_t) (n : Int) (c : String), 1 < s.options.source_cnt →
      (tcpreplay_set_tcpprep_cache s n c).1 = -1 ∧
      ((tcpreplay_set_tcpprep_cache s n c).2).options.cachedata = s.options.cachedata ∧
      ((tcpreplay_set_tcpprep_cache s n c).2).options.source_cnt = s.options.source_cnt) ∧
    (∀ (s : tcpreplay_t) (n : Int) (c : String), s.options.source_cnt ≤ 1 →
      (tcpreplay_set_tcpprep_cache s n c).1 = 0 ∧
      ((tcpreplay_set_tcpprep_cache s n c).2).options.cachedata = true ∧
      ((tcpreplay_set_tcpprep_cache s n c).2).options.source_cnt = s.options.source_cnt) ∧
    (∀ (s : tcpreplay_t) (f : String),
      ((tcpreplay_add_pcapfile s f).2).options.cachedata = s.options.cachedata) := by
  refine ⟨?_, ?_, ?_⟩
  · intro s n c h
    unfold tcpreplay_set_tcpprep_cache
    rw [if_pos h]
    exact ⟨rfl, rfl, rfl⟩
  · intro s n c h
    unfold tcpreplay_set_tcpprep_cache
    rw [if_neg (by omega : ¬ s.options.source_cnt > 1)]
    exact ⟨rfl, rfl, rfl⟩
  · intro s f
    unfold tcpreplay_add_pcapfile
    split
    · rfl
    · rfl

/-- C5 witness: the amended theorem instantiated at a two-source context, at
the fresh context, and at an add_pcapfile call on the fresh context. -/
theorem c5_amended_witness :
    ((tcpreplay_set_tcpprep_cache {tcpreplay_init with options.source_cnt := 2} 4 "x").1 = -1 ∧
      ((tcpreplay_set_tcpprep_cache {tcpreplay_init with options.source_cnt := 2} 4 "x").2).options.cachedata = ({tcpreplay_init with options.source_cnt := 2} : tcpreplay_t).options.cachedata ∧
      ((tcpreplay_set_tcpprep_cache {tcpreplay_init with options.source_cnt := 2} 4 "x").2).options.source_cnt = ({tcpreplay_init with options.source_cnt := 2} : tcpreplay_t).options.source_cnt) ∧
    ((tcpreplay_set_tcpprep_cache tcpreplay_init 4 "x").1 = 0 ∧
      ((tcpreplay_set_tcpprep_cache tcpreplay_init 4 "x").2).options.cachedata = true ∧
      ((tcpreplay_set_tcpprep_cache tcpreplay_init 4 "x").2).options.source_cnt = tcpreplay_init.options.source_cnt) ∧
    ((tcpreplay_add_pcapfile tcpreplay_init "a.pcap").2).options.cachedata = tcpreplay_init.options.cachedata :=
  ⟨c5_tcpprep_cache_amended.1 {tcpreplay_init with options.source_cnt := 2} 4 "x" (by decide),
   c5_tcpprep_cache_amended.2.1 tcpreplay_init 4 "x" (by decide),
   c5_tcpprep_cache_amended.2.2 tcpreplay_init "a.pcap"⟩

/-- C6 counterexample: after tcpreplay_abort, a subsequent
tcpreplay_replay that completes normally leaves the abort flag set — the
claimed reset of the flag on entering tcpreplay_replay does not happen. -/
theorem c6_counterexample :
    ((tcpreplay_abort tcpreplay_init).2).abort = true ∧
    tcpreplay_replay noDriver (some ⟨0, 0⟩) 3 (tcpreplay_abort tcpreplay_init).2 0 =
      some (0, {tcpreplay_init with options.loop := U32MAX, abort := true}) := by
  exact ⟨rfl, by decide⟩

/-- C6 (amended): the abort flag is sticky and never cleared: every
configuration, control and observer operation preserves it once set, and so
does a whole tcpreplay_replay call (for drivers that do not write the
flag); only a freshly initialized context has abort = false. -/
theorem c6_abort_sticky :
    (∀ (s : tcpreplay_t) (op : ApiOp), s.abort = true → (applyOp op s).abort = true) ∧
    (∀ (drv : ReplayDrivers) (clock : Option timeval) (fuel : Nat) (s : tcpreplay_t)
      (idx : Int) (rc : Int) (s2 : tcpreplay_t),
      DriversPreserveAbort drv → s.abort = true →
      tcpreplay_replay drv clock fuel s idx = some (rc, s2) → s2.abort = true) := by
  refine ⟨?_, ?_⟩
  · intro s op h
    cases op <;>
      simp only [applyOp, tcpreplay_set_speed_mode, tcpreplay_set_speed_speed,
        tcpreplay_set_speed_pps_multi, tcpreplay_set_loop, tcpreplay_set_sleep_accel,
        tcpreplay_set_use_pkthdr_len, tcpreplay_set_mtu, tcpreplay_set_accurate,
        tcpreplay_set_file_cache, tcpreplay_add_pcapfile, tcpreplay_set_limit_send,
        tcpreplay_set_tcpprep_cache, tcpreplay_set_manual_callback, tcpreplay_abort,
        tcpreplay_suspend, tcpreplay_restart, tcpreplay_get_pkts_sent,
        tcpreplay_get_bytes_sent, tcpreplay_get_failed, tcpreplay_get_start_time,
        tcpreplay_get_end_time, tcpreplay_get_stats, tcpreplay_seterr] <;>
      first
        | rfl
        | exact h
        | (split <;> first | rfl | exact h)
  · intro drv clock fuel s idx rc s2 hd h0 h
    exact (tcpreplay_replay_abort_aux drv clock fuel s idx rc s2 hd h).trans h0

/-- C6 witness: stickiness across a suspend call and across a concrete
completed replay, from a context with the flag set. -/
theorem c6_amended_witness :
    (applyOp .op_suspend {tcpreplay_init with abort := true}).abort = true ∧
    ({tcpreplay_init with options.loop := U32MAX, abort := true} : tcpreplay_t).abort = true :=
  ⟨c6_abort_sticky.1 {tcpreplay_init with abort := true} .op_suspend rfl,
   c6_abort_sticky.2 noDriver (some ⟨0, 0⟩) 3 {tcpreplay_init with abort := true} 0 0
     {tcpreplay_init with options.loop := U32MAX, abort := true}
     ⟨fun _ _ => rfl, fun _ _ => rfl, fun _ _ => rfl⟩ rfl (by decide)⟩

/-- Iterated tcpreplay_add_pcapfile from the fresh context. -/
def addN : Nat → tcpreplay_t → tcpreplay_t
  | 0, s => s
  | n + 1, s => (tcpreplay_add_pcapfile (addN n s) "file.pcap").2

theorem addN_cnt : ∀ n : Nat, n ≤ MAX_FILES →
    (addN n tcpreplay_init).options.source_cnt = n := by
  intro n
  induction n with
  | zero => intro _; rfl
  | succ m ih =>
    intro h
    have hm := ih (Nat.le_of_lt h)
    show ((tcpreplay_add_pcapfile (addN m tcpreplay_init) "file.pcap").2).options.source_cnt = m + 1
    unfold tcpreplay_add_pcapfile
    rw [if_pos (by rw [hm]; exact h)]
    show (addN m tcpreplay_init).options.source_cnt + 1 = m + 1
    rw [hm]

/-- C7 (confirmed): tcpreplay_add_pcapfile succeeds and increments
source_cnt by exactly one whenever source_cnt < MAX_FILES; at
source_cnt = MAX_FILES it returns -1 and leaves source_cnt and the sources
sequence unchanged; iterating it MAX_FILES times from the fresh context
reaches source_cnt = MAX_FILES exactly. -/
theorem c7_add_pcapfile :
    (∀ (s : tcpreplay_t) (f : String), s.options.source_cnt < MAX_FILES →
      (tcpreplay_add_pcapfile s f).1 = 0 ∧
      ((tcpreplay_add_pcapfile s f).2).options.source_cnt = s.options.source_cnt + 1) ∧
    (∀ (s : tcpreplay_t) (f : String), s.options.source_cnt = MAX_FILES →
      (tcpreplay_add_pcapfile s f).1 = -1 ∧
      ((tcpreplay_add_pcapfile s f).2).options.source_cnt = s.options.source_cnt ∧
      ((tcpreplay_add_pcapfile s f).2).options.sources = s.options.sources) ∧
    (addN MAX_FILES tcpreplay_init).options.source_cnt = MAX_FILES := by
  refine ⟨?_, ?_, addN_cnt MAX_FILES (Nat.le_refl _)⟩
  · intro s f h
    unfold tcpreplay_add_pcapfile
    rw [if_pos h]
    exact ⟨rfl, rfl⟩
  · intro s f h
    unfold tcpreplay_add_pcapfile
    rw [if_neg (by rw [h]; exact Nat.lt_irrefl _)]
    exact ⟨rfl, rfl, rfl⟩

/-- C7 witness: the theorem instantiated at the fresh context (a successful
add) and at a context already holding MAX_FILES sources (a rejected add). -/
theorem c7_witness :
    ((tcpreplay_add_pcapfile tcpreplay_init "a.pcap").1 = 0 ∧
      ((tcpreplay_add_pcapfile tcpreplay_init "a.pcap").2).options.source_cnt = tcpreplay_init.options.source_cnt + 1) ∧
    ((tcpreplay_add_pcapfile {tcpreplay_init with options.source_cnt := MAX_FILES} "a.pcap").1 = -1 ∧
      ((tcpreplay_add_pcapfile {tcpreplay_init with options.source_cnt := MAX_FILES} "a.pcap").2).options.source_cnt = ({tcpreplay_init with options.source_cnt := MAX_FILES} : tcpreplay_t).options.source_cnt ∧
      ((tcpreplay_add_pcapfile {tcpreplay_init with options.source_cnt := MAX_FILES} "a.pcap").2).options.sources = ({tcpreplay_init with options.source_cnt := MAX_FILES} : tcpreplay_t).options.sources) :=
  ⟨c7_add_pcapfile.1 tcpreplay_init "a.pcap" (by decide),
   c7_add_pcapfile.2.1 {tcpreplay_init with options.source_cnt := MAX_FILES} "a.pcap" rfl⟩

/-- C8 counterexample: tcpreplay_set_mtu accepts 10 (below the claimed
lower bound 64), stores it and returns success. -/
theorem c8_counterexample :
    (tcpreplay_set_mtu tcpreplay_init 10).1 = 0 ∧
    ((tcpreplay_set_mtu tcpreplay_init 10).2).options.mtu = 10 ∧
    (10 : Int) < 64 := by
  exact ⟨rfl, rfl, by decide⟩

/-- C8 (amended): tcpreplay_set_mtu performs no validation at all: for
every value, including values below 64, it stores the value into
options.mtu and returns 0, and changes nothing else. -/
theorem c8_set_mtu_amended (s : tcpreplay_t) (value : Int) :
    tcpreplay_set_mtu s value = (0, {s with options.mtu := value}) := rfl

/-- C9 counterexample: a run entered with options.loop = n = 2^32 - 1 > 0
over zero sources completes normally and ends with options.loop equal to
its entry value again (the post-decrement wraps 0 back to 2^32 - 1), so a
second replay performs the same number of passes — the claimed
"options->loop no longer equals n" fails at n = 2^32 - 1. -/
theorem c9_counterexample :
    0 < sBig.options.loop ∧ sBig.options.loop = U32MAX ∧
    tcpreplay_replay noDriver (some ⟨0, 0⟩) (U32MAX + 2) sBig 0 = some (0, sBig) := by
  refine ⟨by decide, rfl, ?_⟩
  simp only [tcpreplay_replay, replayCacheInit_eq]
  split
  · rename_i hc
    exact absurd hc (by decide)
  · split
    · exact replayLoopN_cnt0 noDriver U32MAX (U32MAX + 2)
        {sBig with stats.start_time := ⟨0, 0⟩, running := true} rfl rfl (by omega)
    · rename_i hc
      exact absurd (show 0 < sBig.options.loop by decide) hc

/-- C9 (amended): a tcpreplay_replay that completes normally from entry
loop = n > 0 leaves options.loop = 2^32 - 1 (the u32 post-decrement wraps
through zero) and no other option field changed, for drivers that leave the
options record alone; hence the loop option is destructively consumed and
differs from n afterwards except in the single case n = 2^32 - 1, where a
second replay performs n passes again. -/
theorem c9_loop_consumed (drv : ReplayDrivers) (clock : Option timeval) (fuel : Nat)
    (s : tcpreplay_t) (idx : Int) (s2 : tcpreplay_t)
    (hd : DriversPreserveOptions drv) (hl : 0 < s.options.loop)
    (h : tcpreplay_replay drv clock fuel s idx = some (0, s2)) :
    s2.options = {s.options with loop := U32MAX} :=
  tcpreplay_replay_options_aux drv clock fuel s idx s2 hd hl h

/-- C9 witness: the amended theorem instantiated on a concrete normal
completion from the fresh context (loop = 1). -/
theorem c9_amended_witness :
    0 < tcpreplay_init.options.loop ∧
    ({tcpreplay_init with options.loop := U32MAX} : tcpreplay_t).options =
      {tcpreplay_init.options with loop := U32MAX} :=
  ⟨by decide, c9_loop_consumed noDriver (some ⟨0, 0⟩) 3 tcpreplay_init 0
    {tcpreplay_init with options.loop := U32MAX}
    ⟨fun _ _ => rfl, fun _ _ => rfl, fun _ _ => rfl⟩ (by decide) (by decide)⟩

/-- C10 (code_bug evidence): the fresh context is reachable and already in
the state where the add_pcapfile success branch stores through the NULL
file_cache pointer; and the reachable state obtained by enabling the file
cache and adding one pcap satisfies the guard of the replay cache-init loop
(enable_file_cache set, file_cache NULL, one source), whose body then
indexes the absent file_cache — so both accesses to absent backing storage
happen from reachable states, contrary to the claim. -/
theorem c10_file_cache_absent_code_bug :
    Reachable tcpreplay_init ∧
    add_pcapfile_touches_absent tcpreplay_init = true ∧
    Reachable (applyOp (.op_add_pcapfile "a.pcap") (applyOp (.op_set_file_cache true) tcpreplay_init)) ∧
    replay_cache_init_touches_absent (applyOp (.op_add_pcapfile "a.pcap") (applyOp (.op_set_file_cache true) tcpreplay_init)) = true ∧
    (applyOp (.op_add_pcapfile "a.pcap") (applyOp (.op_set_file_cache true) tcpreplay_init)).options.file_cache = none :=
  ⟨.init, by decide, .step _ (.step _ .init), by decide, by decide⟩
